import Mathlib

/-!
Shallow embedding of the citadel task layer (`citadel/tasks.py`) and the
container registry (`citadel/models/container.py`): the deployment, removal,
upgrade and remediation workflows, together with the helpers they use.
Machine-level collaborators (database, redis, the gRPC core) are modelled as
explicit data threaded through the functions; each definition mirrors the
corresponding Python function.
-/

namespace Citadel

/-- `chars_starts_with s pat` : does the character list `s` start with `pat`?
Mirrors Python's `str.startswith` on the underlying characters. -/
def chars_starts_with : List Char → List Char → Bool
  | _, [] => true
  | [], _ :: _ => false
  | c :: cs, p :: ps => c == p && chars_starts_with cs ps

/-- Python `s.startswith(pat)`. -/
def str_starts_with (s pat : String) : Bool :=
  chars_starts_with s.data pat.data

/-- `chars_contains s pat` : does `s` contain `pat` as a contiguous substring?
Mirrors Python's `pat in s`. -/
def chars_contains : List Char → List Char → Bool
  | [], pat => chars_starts_with [] pat
  | s@(_ :: rest), pat => chars_starts_with s pat || chars_contains rest pat

/-- Python `pat in s` for strings. -/
def str_contains (s pat : String) : Bool :=
  chars_contains s.data pat.data

theorem chars_starts_with_self_append (p rest : List Char) :
    chars_starts_with (p ++ rest) p = true := by
  induction p with
  | nil => cases rest <;> rfl
  | cons c cs ih => simp [chars_starts_with, ih]

/-- `ActionError(code, message)` from `citadel/tasks.py`. -/
structure ActionError where
  code : Nat
  message : String
deriving DecidableEq, Repr

/-- Python's builtin `ValueError`, raised by `Container.get_by_container_id`. -/
structure ValueErrorE where
  message : String
deriving DecidableEq, Repr

/-- Either of the two exception kinds a task can raise. -/
inductive TaskError where
  | value (e : ValueErrorE)
  | action (e : ActionError)
deriving DecidableEq, Repr

/-- A lazily evaluated gRPC result stream, as observed by `_peek_grpc`:
forcing the first element either succeeds (the stream then yields `items`)
or raises one of the three transport-level exception classes caught there
(`face.RemoteError`, `face.RemoteShutdownError`, other `face.AbortionError`). -/
inductive GrpcStream (α : Type) where
  | ok (items : List α)
  | remoteError (details : String)
  | remoteShutdownError (details : String)
  | abortionError
deriving DecidableEq, Repr

/-- `_peek_grpc(call)` from `citadel/tasks.py`: peek the first element of the
stream; convert transport-level rejection into `ActionError(500, ...)`;
otherwise return the peekable stream (all elements, first included) unchanged. -/
def _peek_grpc {α : Type} : GrpcStream α → Except ActionError (List α)
  | .ok items => .ok items
  | .remoteError details => .error ⟨500, details⟩
  | .remoteShutdownError details => .error ⟨500, details⟩
  | .abortionError => .error ⟨500, "gRPC remote server not available"⟩

/-- `ContainerOverrideStatus` from `citadel/models/container.py`. -/
inductive ContainerOverrideStatus where
  | NONE
  | DEBUG
  | REMOVING
deriving DecidableEq, Repr

/-- One row of the `container` table (`citadel/models/container.py`).
Columns are kept at their Python (stringly) types; `deploy_info` is reduced
to the externally written health flag consulted by `is_healthy`. -/
structure Container where
  appname : String := ""
  sha : String := ""
  container_id : String := ""
  container_name : String := ""
  combo_name : String := ""
  entrypoint_name : String := ""
  envname : String := ""
  cpu_quota : String := ""
  memory : String := ""
  zone : String := ""
  podname : String := ""
  nodename : String := ""
  override_status : ContainerOverrideStatus := .NONE
  initialized : Bool := false
deriving DecidableEq, Repr

/-- `Container.is_removing`. -/
def Container.is_removing (c : Container) : Bool :=
  c.override_status = ContainerOverrideStatus.REMOVING

/-- `Container.get_by_container_id(container_id)`: raise `ValueError` when the
argument (`None` coerced to `''`) is shorter than 7 characters, else return the
first row whose `container_id` has the argument as a prefix (the SQL
`LIKE '{}%'` filter followed by `.first()`). The database is the row list. -/
def get_by_container_id (db : List Container) (container_id : Option String) :
    Except ValueErrorE (Option Container) :=
  if (container_id.getD "").length < 7 then
    .error ⟨"Must provide full container ID, got " ++ container_id.getD ""⟩
  else
    .ok (db.find? fun c => str_starts_with c.container_id (container_id.getD ""))

/-- `container.delete()`: remove the row with this container's id from the
database (ids are unique once assigned by the remote scheduler). -/
def delete_container (db : List Container) (c : Container) : List Container :=
  db.filter fun x => x.container_id ≠ c.container_id

/-- The slice of a `Release` row (`citadel/models/app.py`) plus its parsed
specs that the task layer reads: the commit, the built image and the
erection timeout declared in `app.yaml`. -/
structure Release where
  sha : String := ""
  image : String := ""
  erection_timeout : Nat := 0
deriving DecidableEq, Repr

/-- One message of a `create_container` gRPC result stream. -/
structure CreateMsg where
  success : Bool
  id : String
  podname : String := ""
  nodename : String := ""
  error : String := ""
deriving DecidableEq, Repr

/-- The deploy options dict passed to the `create_container` task, reduced to
the keys the task itself reads (`appname`, `entrypoint`, the popped `zone`,
`debug`, `cpu_quota`). -/
structure DeployOptions where
  appname : String := ""
  entrypoint : String := ""
  zone : String := ""
  debug : Bool := false
  cpu_quota : String := ""
deriving DecidableEq, Repr

/-- The observable outcome of the `create_container` per-message loop:
`res` (the returned message dicts), the `Container` rows registered, the
`good_news` / `bad_news` tallies, and the audit-log (`OPLog`) entries. -/
structure CreateOut where
  res : List CreateMsg := []
  containers : List Container := []
  good_news : List CreateMsg := []
  bad_news : List CreateMsg := []
  oplogs : List String := []
deriving DecidableEq, Repr

/-- The `Container` row registered by `create_container` for a successful
message `m`: the task calls `Container.create(appname, sha, m.id, entrypoint,
envname, deploy_options['cpu_quota'], zone, m.podname, m.nodename,
override_status=...)` with nine positional arguments, which the model's
signature `(appname, sha, container_id, container_name, combo_name,
entrypoint_name, envname, cpu_quota, memory, zone, podname, nodename, ...)`
binds as written below (zone, podname and nodename are left unset). -/
def created_container_row (opts : DeployOptions) (sha envname : String)
    (override_status : ContainerOverrideStatus) (m : CreateMsg) : Container :=
  { appname := opts.appname
    sha := sha
    container_id := m.id
    container_name := opts.entrypoint
    combo_name := envname
    entrypoint_name := opts.cpu_quota
    envname := opts.zone
    cpu_quota := m.podname
    memory := m.nodename
    override_status := override_status }

/-- The per-message loop of `create_container`: publish the message (kept in
`res`), and if `m.success` append it to `good_news`, register a `Container`
row (when the registry create returns one — `create_ok`; on a falsy result
the loop logs and `continue`s) and an audit entry; otherwise append it to
`bad_news`. -/
def create_container_loop (opts : DeployOptions) (sha envname : String)
    (create_ok : String → Bool) : List CreateMsg → CreateOut
  | [] => {}
  | m :: ms =>
    let rest := create_container_loop opts sha envname create_ok ms
    if m.success then
      let override_status := if opts.debug then ContainerOverrideStatus.DEBUG
        else ContainerOverrideStatus.NONE
      if create_ok m.id then
        { rest with
          res := m :: rest.res
          good_news := m :: rest.good_news
          containers := created_container_row opts sha envname override_status m :: rest.containers
          oplogs := m.id :: rest.oplogs }
      else
        { rest with res := m :: rest.res, good_news := m :: rest.good_news }
    else
      { rest with res := m :: rest.res, bad_news := m :: rest.bad_news }

/-- The `create_container` task: peek the create stream (transport faults
become `ActionError(500)` before any message is processed), then run the
per-message reconciliation loop. -/
def create_container (opts : DeployOptions) (sha envname : String)
    (create_ok : String → Bool) (stream : GrpcStream CreateMsg) :
    Except ActionError CreateOut :=
  match _peek_grpc stream with
  | .error e => .error e
  | .ok ms => .ok (create_container_loop opts sha envname create_ok ms)

/-- The body of `Container.wait_for_erection`'s polling loop, fuelled by the
number of iterations: `while now < must_end` checks `is_healthy` (the health
flag re-read fresh from the store, modelled as the trace `health` indexed by
elapsed seconds) and sleeps 2 seconds between polls. -/
def wfe_go (health : Nat → Bool) : Nat → Nat → Bool
  | 0, _ => false
  | fuel + 1, t => if health t then true else wfe_go health fuel (t + 2)

/-- `Container.wait_for_erection(timeout)`: a falsy `timeout` falls back to
the release's `erection_timeout` from the specs; if the resulting timeout is
still falsy, report healthy immediately without polling; otherwise poll every
2 seconds while the elapsed time is below the timeout (that is,
`(timeout + 1) / 2` polls at elapsed times `0, 2, 4, ...`). -/
def wait_for_erection (timeout specs_erection_timeout : Nat)
    (health : Nat → Bool) : Bool :=
  let timeout := if timeout = 0 then specs_erection_timeout else timeout
  if timeout = 0 then true
  else wfe_go health ((timeout + 1) / 2) 0

/-- `erection_timeout or release.erection_timeout` in `upgrade_container`:
Python's `or` treats both `None` and `0` as falsy. -/
def effective_erection_timeout (erection_timeout : Option Nat) (release : Release) : Nat :=
  match erection_timeout with
  | none => release.erection_timeout
  | some t => if t = 0 then release.erection_timeout else t

/-- The `upgrade_container` task, after the old container resolved. Returns
the pair (container id handed to `remove_container`, surviving container id):
a missing or unbuilt release raises `ActionError(400)`; otherwise the task
deploys the new container (`new_container_id`, assumed created), waits for it
to erect, and removes the old container on health or the new one on timeout. -/
def upgrade_container (release? : Option Release) (sha : String)
    (old_container_id new_container_id : String) (erection_timeout : Option Nat)
    (health : Nat → Bool) : Except ActionError (String × String) :=
  match release? with
  | none => .error ⟨400, "Release " ++ sha ++ " not found or not built"⟩
  | some release =>
    if release.image = "" then
      .error ⟨400, "Release " ++ sha ++ " not found or not built"⟩
    else
      let healthy := wait_for_erection (effective_erection_timeout erection_timeout release)
        release.erection_timeout health
      if healthy then .ok (old_container_id, new_container_id)
      else .ok (new_container_id, old_container_id)

/-- One message of a `remove_container` gRPC result stream (`m.message` is the
remote error text). -/
structure RemoveMsg where
  success : Bool
  id : String
  message : String := ""
deriving DecidableEq, Repr

/-- Observable actions of the `remove_container` task, in program order.
`zone_check` marks that control reached the cross-zone precondition test;
every other constructor is a side effect on a collaborator. -/
inductive RemoveEvent where
  | zone_check
  | mark_removing (container_id : String)
  | elb_remove (container_ids : List String)
  | remote_remove_call (zone : String) (container_ids : List String)
  | publish (m : RemoveMsg)
  | delete (container_id : String)
  | oplog (container_id : String)
  | skip_not_found (container_id : String)
  | error_notify (container_id : String) (message : String)
deriving DecidableEq, Repr

/-- `[Container.get_by_container_id(i) for i in ids]` followed by the truthy
filter: any `ValueError` from a short id propagates out of the task. -/
def resolve_containers (db : List Container) : List String →
    Except ValueErrorE (List Container)
  | [] => .ok []
  | i :: rest =>
    match get_by_container_id db (some i) with
    | .error e => .error e
    | .ok c =>
      match resolve_containers db rest with
      | .error e => .error e
      | .ok cs =>
        match c with
        | some c => .ok (c :: cs)
        | none => .ok cs

/-- One iteration of `remove_container`'s per-message reconciliation (after
the verbatim publish): re-look the container up by the message's id (a short
id raises `ValueError`); a missing row is skipped with an informational log;
on `success` delete the row and append an audit entry; on the two recognized
already-absent error texts delete the row anyway; on the malformed-id error
text skip silently; otherwise log and notify the operations channel. Returns
the events for this message and the updated database. -/
def reconcile_remove_message (db : List Container) (m : RemoveMsg) :
    Except ValueErrorE (List RemoveEvent × List Container) :=
  match get_by_container_id db (some m.id) with
  | .error e => .error e
  | .ok none => .ok ([.skip_not_found m.id], db)
  | .ok (some container) =>
    if m.success then
      .ok ([.delete container.container_id, .oplog m.id], delete_container db container)
    else if str_contains m.message "Key not found" ||
        str_contains m.message "No such container" then
      .ok ([.delete container.container_id], delete_container db container)
    else if str_contains m.message "Container ID must be length of" then
      .ok ([], db)
    else
      .ok ([.error_notify m.id m.message], db)

/-- Outcome of `remove_container`'s per-message loop: the event trace, the
returned `res` list, the database after the deletions, and the `ValueError`
(if any) that aborted the loop. -/
structure RemoveLoopOut where
  events : List RemoveEvent := []
  res : List RemoveMsg := []
  db : List Container := []
  err : Option ValueErrorE := none
deriving DecidableEq, Repr

/-- The `for m in ms` loop of `remove_container`: publish each message, append
it to `res`, then reconcile it against the registry. -/
def remove_loop (db : List Container) : List RemoveMsg → RemoveLoopOut
  | [] => { db := db }
  | m :: ms =>
    match reconcile_remove_message db m with
    | .error e => { events := [.publish m], res := [m], db := db, err := some e }
    | .ok (evs, db') =>
      let rest := remove_loop db' ms
      { rest with
        events := .publish m :: evs ++ rest.events
        res := m :: rest.res }

/-- The `remove_container` task. Resolve the ids (short ids raise
`ValueError`); when nothing resolves, return `None` at once; check the
cross-zone precondition (`ActionError(400)` when the resolved containers span
more than one zone); then mark each container removing, detach all from the
load balancer, invoke the remote `remove_container` RPC (peeked — transport
faults become `ActionError(500)`), and reconcile the streamed results. -/
def remove_container (db : List Container) (ids : List String)
    (stream : GrpcStream RemoveMsg) :
    List RemoveEvent × Except TaskError (Option (List RemoveMsg)) :=
  match resolve_containers db ids with
  | .error e => ([], .error (.value e))
  | .ok containers =>
    if containers.isEmpty then ([], .ok none)
    else
      let full_ids := containers.map (·.container_id)
      let zones := (containers.map (·.zone)).dedup
      if zones.length ≠ 1 then
        ([.zone_check], .error (.action ⟨400, "Cannot remove containers across zone"⟩))
      else
        let zone := zones.headD ""
        let evs := RemoveEvent.zone_check ::
          containers.map (fun c => RemoveEvent.mark_removing c.container_id) ++
          [RemoveEvent.elb_remove full_ids, RemoveEvent.remote_remove_call zone full_ids]
        match _peek_grpc stream with
        | .error e => (evs, .error (.action e))
        | .ok ms =>
          let out := remove_loop db ms
          (evs ++ out.events,
           match out.err with
           | some e => .error (.value e)
           | none => .ok (some out.res))

/-- The shared expiring key-value store (redis) used for tackle throttling:
each entry is a key with its absolute expiry time. -/
structure RdsStore where
  entries : List ((String × String) × Nat) := []
deriving DecidableEq, Repr

/-- `key in rds` at time `now`: some entry for the key has not yet expired
(`setex` keys live for exactly their ttl). -/
def rds_mem (st : RdsStore) (key : String × String) (now : Nat) : Bool :=
  st.entries.any fun e => decide (e.1 = key) && decide (now < e.2)

/-- `rds.setex(key, 'true', ttl)` at time `now`. -/
def rds_setex (st : RdsStore) (key : String × String) (ttl now : Nat) : RdsStore :=
  ⟨(key, now + ttl) :: st.entries⟩

/-- Modelled from the spec: `CITADEL_TACKLE_TASK_THROTTLING_KEY` lives in
`citadel/config.py`, which is not among the sources; the spec prescribes a
per-(subject, strategy) cooldown key, so the key is the pair itself. -/
def citadel_tackle_task_throttling_key (id_ strategy : String) : String × String :=
  (id_, strategy)

/-- Observable actions of one `TackleTask.__call__` invocation, in program
order: arming the cooldown key precedes executing the strategy body. -/
inductive TackleEvent where
  | setex (key : String × String) (expiry : Nat)
  | exec (strategy : String) (subject : String) (time : Nat)
deriving DecidableEq, Repr

/-- `TackleTask.__call__(smart_status, dangers, **kwargs)` at time `now`:
if the per-(subject, strategy) throttling key is present in the store, skip
entirely (no event, store unchanged); otherwise arm the key with the cooldown
ttl and then run the strategy body. -/
def tackle_call (st : RdsStore) (now : Nat) (subject strategy : String)
    (cooldown : Nat) : RdsStore × List TackleEvent :=
  let key := citadel_tackle_task_throttling_key subject strategy
  if rds_mem st key now then (st, [])
  else
    (rds_setex st key cooldown now,
     [.setex key (now + cooldown), .exec strategy subject now])

/-- Number of strategy-body executions in a tackle event trace. -/
def exec_count (evs : List TackleEvent) : Nat :=
  (evs.filter fun e => match e with | .exec _ _ _ => true | _ => false).length

/-- The `respawn_container` strategy body: give up when the container is
already marked removing, otherwise invoke `upgrade_container` on the same
release with `erection_timeout=0`. `none` models the early `return`. -/
def respawn_container (container : Container) (release? : Option Release)
    (new_container_id : String) (health : Nat → Bool) :
    Option (Except ActionError (String × String)) :=
  if container.is_removing then none
  else some (upgrade_container release? container.sha container.container_id
    new_container_id (some 0) health)

/-- One item yielded by `pubsub.listen()`: the `data` field is an integer for
subscribe/unsubscribe confirmations and a string for published messages. -/
inductive RdsData where
  | int (n : Nat)
  | str (s : String)
deriving DecidableEq, Repr

/-- Modelled from the spec: the terminal sentinel `TASK_PUBSUB_EOF` published
at task success or failure lives in `citadel/config.py`, which is not among
the sources; the consumer in `celery_task_stream_response` recognizes it by
the prefix `CELERY_TASK_DONE` and extracts the task id after the colon, so the
sentinel for one operation id is `"CELERY_TASK_DONE:" + taskId`. -/
def task_pubsub_eof (task_id : String) : String :=
  "CELERY_TASK_DONE:" ++ task_id

/-- `celery_task_stream_response` for a single task id: iterate the pubsub
items; skip non-string data (the initial subscribe confirmation); on a message
starting with `CELERY_TASK_DONE` unsubscribe from the (only) channel, which
ends `pubsub.listen()` — the sentinel is not yielded; otherwise yield the
message. Returns the yielded messages and whether the subscription was
released. -/
def celery_task_stream_response : List RdsData → List String × Bool
  | [] => ([], false)
  | .int _ :: rest => celery_task_stream_response rest
  | .str content :: rest =>
    if str_starts_with content "CELERY_TASK_DONE" then ([], true)
    else
      let out := celery_task_stream_response rest
      (content :: out.1, out.2)

/-- C6: for every remote operation call, the peek probe reads the first stream
element synchronously before returning: any transport-level rejection is
converted into an `ActionError` with code 500 raised before the caller begins
iterating, and if the probe succeeds the original lazy sequence — including
the already-peeked first element — is returned unchanged. -/
theorem peek_grpc_probe_boundary {α : Type} (s : GrpcStream α) :
    (∀ items, s = GrpcStream.ok items → _peek_grpc s = Except.ok items) ∧
    ((∀ items, s ≠ GrpcStream.ok items) →
      ∃ msg, _peek_grpc s = Except.error ⟨500, msg⟩) := by
  constructor
  · rintro items rfl
    rfl
  · intro h
    cases s with
    | ok items => exact absurd rfl (h items)
    | remoteError details => exact ⟨details, rfl⟩
    | remoteShutdownError details => exact ⟨details, rfl⟩
    | abortionError => exact ⟨"gRPC remote server not available", rfl⟩

theorem peek_grpc_probe_boundary_witness :
    _peek_grpc (GrpcStream.ok [(3 : Nat)]) = Except.ok [3] ∧
    ∃ msg, _peek_grpc (GrpcStream.abortionError (α := Nat)) = Except.error ⟨500, msg⟩ :=
  ⟨(peek_grpc_probe_boundary (GrpcStream.ok [3])).1 [3] rfl,
   (peek_grpc_probe_boundary (GrpcStream.abortionError (α := Nat))).2
     (fun _ h => nomatch h)⟩

/-- C9: `Container.get_by_container_id` with an argument that is `None`, empty,
or shorter than 7 characters raises `ValueError` without performing a lookup
(the outcome is the same for every database); for arguments of length at least
7 the container is found by prefix match on its id (any returned row belongs
to the database and has the argument as an id prefix, and no row is returned
exactly when no row matches the prefix). -/
theorem get_by_container_id_prefix_lookup :
    (∀ (db : List Container) (cid : Option String), (cid.getD "").length < 7 →
      ∃ e, get_by_container_id db cid = .error e ∧
        ∀ db' : List Container, get_by_container_id db' cid = .error e) ∧
    (∀ (db : List Container) (s : String), 7 ≤ s.length →
      (∀ c, get_by_container_id db (some s) = .ok (some c) →
        c ∈ db ∧ str_starts_with c.container_id s = true) ∧
      (get_by_container_id db (some s) = .ok none ↔
        ∀ c ∈ db, str_starts_with c.container_id s = false)) := by
  constructor
  · intro db cid h
    exact ⟨⟨"Must provide full container ID, got " ++ cid.getD ""⟩,
      by simp [get_by_container_id, h], fun db' => by simp [get_by_container_id, h]⟩
  · intro db s h7
    have hlt : ¬ s.length < 7 := by omega
    constructor
    · intro c hc
      simp only [get_by_container_id, Option.getD_some, if_neg hlt, Except.ok.injEq] at hc
      refine ⟨List.mem_of_find?_eq_some hc, ?_⟩
      simpa using List.find?_some hc
    · simp only [get_by_container_id, Option.getD_some, if_neg hlt, Except.ok.injEq]
      rw [List.find?_eq_none]
      simp

theorem get_by_container_id_prefix_lookup_witness :
    ∃ e, get_by_container_id [] (some "abc") = .error e ∧
      ∀ db' : List Container, get_by_container_id db' (some "abc") = .error e :=
  get_by_container_id_prefix_lookup.1 [] (some "abc") (by decide)

/-- C5: a removal stream message with `success` false whose error text
contains one of the two recognized already-absent patterns (`Key not found`
or `No such container`) leads to the local container record being deleted
anyway — treated as success, with no error notification — so removing a
container whose remote removal already happened still deletes the record. -/
theorem remove_already_absent_treated_as_success (db : List Container)
    (m : RemoveMsg) (c : Container)
    (hres : get_by_container_id db (some m.id) = .ok (some c))
    (hsucc : m.success = false)
    (hpat : (str_contains m.message "Key not found" ||
             str_contains m.message "No such container") = true) :
    reconcile_remove_message db m =
      .ok ([.delete c.container_id], delete_container db c) ∧
    ∀ x ∈ delete_container db c, x.container_id ≠ c.container_id := by
  constructor
  · simp [reconcile_remove_message, hres, hsucc, hpat]
  · intro x hx
    simpa using List.of_mem_filter hx

theorem remove_already_absent_treated_as_success_witness :
    reconcile_remove_message [{ container_id := "abcdef1" }]
        { success := false, id := "abcdef1", message := "100: Key not found" } =
      .ok ([.delete "abcdef1"],
        delete_container [{ container_id := "abcdef1" }] { container_id := "abcdef1" }) ∧
    ∀ x ∈ delete_container [{ container_id := "abcdef1" }] { container_id := "abcdef1" },
      x.container_id ≠ "abcdef1" :=
  remove_already_absent_treated_as_success
    [{ container_id := "abcdef1" }]
    { success := false, id := "abcdef1", message := "100: Key not found" }
    { container_id := "abcdef1" } rfl rfl (by decide)

theorem task_pubsub_eof_starts_with (task_id : String) :
    str_starts_with (task_pubsub_eof task_id) "CELERY_TASK_DONE" = true := by
  show chars_starts_with ("CELERY_TASK_DONE:" ++ task_id).data "CELERY_TASK_DONE".data = true
  rw [String.data_append]
  exact chars_starts_with_self_append "CELERY_TASK_DONE".data (':' :: task_id.data)

theorem celery_task_stream_response_append (rest : List RdsData)
    (task_id : String) (msgs : List String)
    (h : ∀ m ∈ msgs, str_starts_with m "CELERY_TASK_DONE" = false) :
    celery_task_stream_response
      (msgs.map RdsData.str ++ (RdsData.str (task_pubsub_eof task_id) :: rest)) =
      (msgs, true) := by
  induction msgs with
  | nil => simp [celery_task_stream_response, task_pubsub_eof_starts_with]
  | cons m ms ih =>
    have hm := h m (by simp)
    have ih' := ih fun x hx => h x (by simp [hx])
    simp [celery_task_stream_response, hm, ih']

/-- C8: a subscriber to one operation id that connects before publishing
starts (so it sees the subscribe confirmation, then every published message)
receives every published message in publish order; the stream terminates when
the reserved terminal sentinel (`"CELERY_TASK_DONE:" + operationId`) is
consumed, the subscription to that channel is released at that point, and
the sentinel itself is never forwarded to the caller. -/
theorem celery_task_stream_response_delivers_in_order (task_id : String)
    (msgs : List String) (rest : List RdsData)
    (h : ∀ m ∈ msgs, str_starts_with m "CELERY_TASK_DONE" = false) :
    celery_task_stream_response
      (RdsData.int 1 :: msgs.map RdsData.str ++
        (RdsData.str (task_pubsub_eof task_id) :: rest)) =
      (msgs, true) := by
  simpa [celery_task_stream_response] using
    celery_task_stream_response_append rest task_id msgs h

theorem celery_task_stream_response_delivers_in_order_witness :
    celery_task_stream_response
      (RdsData.int 1 :: ["msg one", "msg two"].map RdsData.str ++
        (RdsData.str (task_pubsub_eof "task42") :: [RdsData.str "late"])) =
      (["msg one", "msg two"], true) :=
  celery_task_stream_response_delivers_in_order "task42" ["msg one", "msg two"]
    [RdsData.str "late"] (by decide)

/-- The per-message loop of `create_container`, when every registry create
succeeds, registers exactly the rows built from the successful messages, in
stream order, tallies the successful messages as `good_news` and the others
as `bad_news`, and returns every message in `res`. -/
theorem create_container_loop_characterization (opts : DeployOptions)
    (sha envname : String) (create_ok : String → Bool)
    (hok : ∀ s, create_ok s = true) (ms : List CreateMsg) :
    (create_container_loop opts sha envname create_ok ms).containers =
      (ms.filter fun m => m.success).map
        (created_container_row opts sha envname
          (if opts.debug then ContainerOverrideStatus.DEBUG else ContainerOverrideStatus.NONE)) ∧
    (create_container_loop opts sha envname create_ok ms).good_news =
      ms.filter (fun m => m.success) ∧
    (create_container_loop opts sha envname create_ok ms).bad_news =
      ms.filter (fun m => !m.success) ∧
    (create_container_loop opts sha envname create_ok ms).res = ms := by
  induction ms with
  | nil => exact ⟨rfl, rfl, rfl, rfl⟩
  | cons m ms ih =>
    obtain ⟨ihc, ihg, ihb, ihr⟩ := ih
    by_cases hs : m.success
    · simp [create_container_loop, hs, hok m.id, ihc, ihg, ihb, ihr]
    · simp [create_container_loop, hs, ihc, ihg, ihb, ihr]

/-- C1: for a create-container stream of `N` result messages of which `k`
have `success` set, and assuming every registry create succeeds, the
`create_container` task creates exactly `k` `Container` records — one per
successful message, each carrying override-status `DEBUG` when
`options.debug` is set and `NONE` otherwise — the good tally has exactly `k`
entries and the bad tally exactly `N - k`, and every created record stems
from a successful message (none from an unsuccessful one). -/
theorem create_container_batch_tally (opts : DeployOptions) (sha envname : String)
    (create_ok : String → Bool) (ms : List CreateMsg)
    (hok : ∀ s, create_ok s = true) :
    ∃ out, create_container opts sha envname create_ok (GrpcStream.ok ms) = .ok out ∧
      out.containers.length = (ms.filter fun m => m.success).length ∧
      out.good_news.length = (ms.filter fun m => m.success).length ∧
      out.bad_news.length = ms.length - (ms.filter fun m => m.success).length ∧
      (∀ c ∈ out.containers, c.override_status =
        if opts.debug then ContainerOverrideStatus.DEBUG else ContainerOverrideStatus.NONE) ∧
      (∀ c ∈ out.containers, ∃ m ∈ ms, m.success = true ∧ m.id = c.container_id) := by
  obtain ⟨hc, hg, hb, _⟩ :=
    create_container_loop_characterization opts sha envname create_ok hok ms
  refine ⟨create_container_loop opts sha envname create_ok ms, rfl, ?_, ?_, ?_, ?_, ?_⟩
  · rw [hc, List.length_map]
  · rw [hg]
  · rw [hb]
    have hsplit : ∀ l : List CreateMsg, (l.filter fun m => !m.success).length +
        (l.filter fun m => m.success).length = l.length := by
      intro l
      induction l with
      | nil => rfl
      | cons x xs ih => by_cases h : x.success <;> simp [h] <;> omega
    have := hsplit ms
    omega
  · intro c hcm
    rw [hc] at hcm
    obtain ⟨m, _, rfl⟩ := List.mem_map.1 hcm
    rfl
  · intro c hcm
    rw [hc] at hcm
    obtain ⟨m, hm, rfl⟩ := List.mem_map.1 hcm
    exact ⟨m, List.mem_of_mem_filter hm, List.of_mem_filter hm, rfl⟩

theorem create_container_batch_tally_witness :
    ∃ out, create_container {} "sha1234" "prod" (fun _ => true)
        (GrpcStream.ok ([⟨true, "aaaaaaa1", "", "", ""⟩,
          ⟨false, "bbbbbbb2", "", "", "no space"⟩,
          ⟨true, "ccccccc3", "", "", ""⟩] : List CreateMsg)) = .ok out ∧
      out.containers.length = 2 ∧
      out.good_news.length = 2 ∧
      out.bad_news.length = 3 - 2 ∧
      (∀ c ∈ out.containers, c.override_status = ContainerOverrideStatus.NONE) ∧
      (∀ c ∈ out.containers,
        ∃ m ∈ ([⟨true, "aaaaaaa1", "", "", ""⟩,
          ⟨false, "bbbbbbb2", "", "", "no space"⟩,
          ⟨true, "ccccccc3", "", "", ""⟩] : List CreateMsg),
          m.success = true ∧ m.id = c.container_id) :=
  create_container_batch_tally {} "sha1234" "prod" (fun _ => true)
    ([⟨true, "aaaaaaa1", "", "", ""⟩,
      ⟨false, "bbbbbbb2", "", "", "no space"⟩,
      ⟨true, "ccccccc3", "", "", ""⟩] : List CreateMsg) (fun _ => rfl)

/-- C2: a removal request whose resolved containers span two or more zones
raises `ActionError(400)` before any side effect: the trace records only that
the zone check was reached — no container is marked removing, no
load-balancer detach happens, and the remote `remove_container` call is never
made (the outcome holds for every possible remote stream). -/
theorem remove_container_cross_zone_rejected (db : List Container)
    (ids : List String) (stream : GrpcStream RemoveMsg) (cs : List Container)
    (hres : resolve_containers db ids = .ok cs)
    (hz : 2 ≤ ((cs.map (·.zone)).dedup).length) :
    remove_container db ids stream =
      ([.zone_check],
       .error (.action ⟨400, "Cannot remove containers across zone"⟩)) := by
  have hne : cs.isEmpty = false := by
    cases cs with
    | nil => simp at hz
    | cons c cs => rfl
  have hz1 : ((cs.map (·.zone)).dedup).length ≠ 1 := by omega
  simp [remove_container, hres, hne, hz1]

theorem remove_container_cross_zone_rejected_witness :
    remove_container
      [{ container_id := "aaaaaaa1", zone := "zone-a" },
       { container_id := "bbbbbbb2", zone := "zone-b" }]
      ["aaaaaaa1", "bbbbbbb2"] (GrpcStream.ok []) =
      ([.zone_check],
       .error (.action ⟨400, "Cannot remove containers across zone"⟩)) :=
  remove_container_cross_zone_rejected
    [{ container_id := "aaaaaaa1", zone := "zone-a" },
     { container_id := "bbbbbbb2", zone := "zone-b" }]
    ["aaaaaaa1", "bbbbbbb2"] (GrpcStream.ok [])
    [{ container_id := "aaaaaaa1", zone := "zone-a" },
     { container_id := "bbbbbbb2", zone := "zone-b" }]
    rfl (by decide)

/-- C10: a removal request in which none of the supplied ids resolves to a
locally recorded container returns immediately (`None`) with no error and an
empty trace: no removing marks, no load-balancer detach, no remote call —
in particular the cross-zone precondition check is never reached (the trace
has no `zone_check` event), for every possible remote stream. -/
theorem remove_container_nothing_resolved (db : List Container)
    (ids : List String) (stream : GrpcStream RemoveMsg)
    (h : ∀ i ∈ ids, get_by_container_id db (some i) = .ok none) :
    remove_container db ids stream = ([], .ok none) := by
  have hres : resolve_containers db ids = .ok [] := by
    induction ids with
    | nil => rfl
    | cons i rest ih =>
      have hi := h i (by simp)
      have ihr := ih fun x hx => h x (by simp [hx])
      simp [resolve_containers, hi, ihr]
  simp [remove_container, hres]

theorem remove_container_nothing_resolved_witness :
    remove_container [{ container_id := "ddddddd4", zone := "zone-a" }]
      ["eeeeeee5", "fffffff6"] (GrpcStream.ok [⟨true, "eeeeeee5", ""⟩]) =
      ([], .ok none) :=
  remove_container_nothing_resolved
    [{ container_id := "ddddddd4", zone := "zone-a" }]
    ["eeeeeee5", "fffffff6"] (GrpcStream.ok [⟨true, "eeeeeee5", ""⟩])
    (by
      intro i hi
      simp only [List.mem_cons, List.not_mem_nil, or_false] at hi
      rcases hi with rfl | rfl <;> rfl)

theorem wfe_go_eq_true_iff (health : Nat → Bool) :
    ∀ fuel t, wfe_go health fuel t = true ↔
      ∃ k, k < fuel ∧ health (t + 2 * k) = true := by
  intro fuel
  induction fuel with
  | zero =>
    intro t
    simp [wfe_go]
  | succ n ih =>
    intro t
    by_cases h : health t
    · simp only [wfe_go, h, if_true, true_iff]
      exact ⟨0, by omega, by simpa using h⟩
    · simp only [wfe_go, h, if_false, Bool.false_eq_true]
      rw [ih (t + 2)]
      constructor
      · rintro ⟨k, hk, hh⟩
        refine ⟨k + 1, by omega, ?_⟩
        have harith : t + 2 * (k + 1) = t + 2 + 2 * k := by omega
        rw [harith]
        exact hh
      · rintro ⟨k, hk, hh⟩
        cases k with
        | zero =>
          simp only [Nat.mul_zero, Nat.add_zero] at hh
          exact absurd hh h
        | succ j =>
          refine ⟨j, by omega, ?_⟩
          have harith : t + 2 + 2 * j = t + 2 * (j + 1) := by omega
          rw [harith]
          exact hh

/-- `wait_for_erection` with a nonzero effective timeout `T` reports healthy
exactly when some 2-second poll strictly before the deadline observes the
health flag set. -/
theorem wait_for_erection_pos_iff (T specs : Nat) (hT : T ≠ 0)
    (health : Nat → Bool) :
    wait_for_erection T specs health = true ↔
      ∃ k, 2 * k < T ∧ health (2 * k) = true := by
  simp only [wait_for_erection, if_neg hT, hT, if_false]
  rw [wfe_go_eq_true_iff]
  constructor
  · rintro ⟨k, hk, hh⟩
    exact ⟨k, by omega, by simpa using hh⟩
  · rintro ⟨k, hk, hh⟩
    exact ⟨k, by omega, by simpa using hh⟩

/-- C3: per upgrade of one old container to a new one (valid built release):
if the new container becomes healthy at a poll strictly before the deadline,
the Removal Workflow is handed the old container id and the new container
survives; if it never becomes healthy within a positive deadline, the Removal
Workflow is handed the new container id and the old container survives;
in both cases exactly one of the two containers survives. -/
theorem upgrade_container_exactly_one_survives (release : Release)
    (sha old_id new_id : String) (et : Option Nat) (health : Nat → Bool)
    (him : release.image ≠ "") (hne : old_id ≠ new_id) :
    ((∃ k, 2 * k < effective_erection_timeout et release ∧ health (2 * k) = true) →
      upgrade_container (some release) sha old_id new_id et health =
        .ok (old_id, new_id)) ∧
    ((0 < effective_erection_timeout et release ∧
      ∀ k, 2 * k < effective_erection_timeout et release → health (2 * k) = false) →
      upgrade_container (some release) sha old_id new_id et health =
        .ok (new_id, old_id)) ∧
    (∀ removed survivor,
      upgrade_container (some release) sha old_id new_id et health =
        .ok (removed, survivor) →
      removed ≠ survivor ∧
        ((removed = old_id ∧ survivor = new_id) ∨
         (removed = new_id ∧ survivor = old_id))) := by
  refine ⟨?_, ?_, ?_⟩
  · rintro ⟨k, hk, hh⟩
    have hT : effective_erection_timeout et release ≠ 0 := by omega
    have hw : wait_for_erection (effective_erection_timeout et release)
        release.erection_timeout health = true :=
      (wait_for_erection_pos_iff _ _ hT health).2 ⟨k, hk, hh⟩
    simp [upgrade_container, him, hw]
  · rintro ⟨hpos, hnever⟩
    have hT : effective_erection_timeout et release ≠ 0 := by omega
    have hw : wait_for_erection (effective_erection_timeout et release)
        release.erection_timeout health = false := by
      rw [← Bool.not_eq_true]
      rw [wait_for_erection_pos_iff _ _ hT health]
      rintro ⟨k, hk, hh⟩
      exact absurd hh (by simp [hnever k hk])
    simp [upgrade_container, him, hw]
  · intro removed survivor hout
    simp only [upgrade_container, if_neg him] at hout
    by_cases hw : wait_for_erection (effective_erection_timeout et release)
        release.erection_timeout health
    · rw [if_pos hw] at hout
      cases hout
      exact ⟨hne, Or.inl ⟨rfl, rfl⟩⟩
    · rw [if_neg hw] at hout
      cases hout
      exact ⟨hne.symm, Or.inr ⟨rfl, rfl⟩⟩

theorem upgrade_container_exactly_one_survives_witness :
    upgrade_container (some ⟨"cafe123", "registry/app:cafe123", 10⟩) "cafe123"
      "aaaaaaa1" "bbbbbbb2" none (fun t => 4 ≤ t) = .ok ("aaaaaaa1", "bbbbbbb2") :=
  (upgrade_container_exactly_one_survives ⟨"cafe123", "registry/app:cafe123", 10⟩
    "cafe123" "aaaaaaa1" "bbbbbbb2" none (fun t => 4 ≤ t)
    (by decide) (by decide)).1 ⟨2, by decide, by decide⟩

/-- C7 counterexample: `respawn_container` invokes the upgrade with
`erection_timeout=0`, but Python's `erection_timeout or release.erection_timeout`
treats the zero override as falsy, so with a release whose configured erection
timeout is 4 the effective deadline is 4 — not zero/falsy — the wait polls and
(with a never-healthy container) reports failure rather than immediate
success, and the respawned (new) container is removed instead of surviving. -/
theorem respawn_zero_override_counterexample :
    effective_erection_timeout (some 0) ⟨"cafe123", "registry/app:cafe123", 4⟩ = 4 ∧
    wait_for_erection
      (effective_erection_timeout (some 0) ⟨"cafe123", "registry/app:cafe123", 4⟩)
      4 (fun _ => false) = false ∧
    respawn_container { container_id := "aaaaaaa1", sha := "cafe123" }
      (some ⟨"cafe123", "registry/app:cafe123", 4⟩) "bbbbbbb2" (fun _ => false) =
      some (.ok ("bbbbbbb2", "aaaaaaa1")) :=
  ⟨rfl, rfl, rfl⟩

/-- C7 amended: when the respawn strategy invokes the Upgrade Workflow with
its zero erection-timeout override, the override is falsy so the effective
deadline falls back to the release's configured erection timeout; the wait
reports immediate success without polling exactly in the case that this
release timeout also resolves to zero/falsy. -/
theorem respawn_zero_override_amended (c : Container) (release : Release)
    (new_id : String) (health : Nat → Bool) (hnr : c.is_removing = false) :
    respawn_container c (some release) new_id health =
      some (upgrade_container (some release) c.sha c.container_id new_id
        (some 0) health) ∧
    effective_erection_timeout (some 0) release = release.erection_timeout ∧
    (release.erection_timeout = 0 →
      wait_for_erection (effective_erection_timeout (some 0) release)
        release.erection_timeout health = true) := by
  refine ⟨?_, rfl, ?_⟩
  · simp [respawn_container, hnr]
  · intro h0
    simp [effective_erection_timeout, wait_for_erection, h0]

theorem respawn_zero_override_amended_witness :
    respawn_container { container_id := "aaaaaaa1", sha := "cafe123" }
        (some ⟨"cafe123", "registry/app:cafe123", 0⟩) "bbbbbbb2" (fun _ => false) =
      some (upgrade_container (some ⟨"cafe123", "registry/app:cafe123", 0⟩)
        "cafe123" "aaaaaaa1" "bbbbbbb2" (some 0) (fun _ => false)) ∧
    effective_erection_timeout (some 0) ⟨"cafe123", "registry/app:cafe123", 0⟩ = 0 ∧
    ((0 : Nat) = 0 →
      wait_for_erection
        (effective_erection_timeout (some 0) ⟨"cafe123", "registry/app:cafe123", 0⟩)
        0 (fun _ => false) = true) :=
  respawn_zero_override_amended { container_id := "aaaaaaa1", sha := "cafe123" }
    ⟨"cafe123", "registry/app:cafe123", 0⟩ "bbbbbbb2" (fun _ => false) rfl

/-- C4: for a (subject, strategy) pair, invoking the same tackle strategy
twice within the cooldown window executes the strategy body exactly once:
the first invocation arms the cooldown key in the expiring store before the
body runs (the `setex` event precedes the `exec` event), the second
invocation while the key lives is skipped entirely — no events, store
unchanged, cooldown not re-armed — and invoking again after the key expires
executes the body a second time. -/
theorem tackle_call_throttles (subject strategy : String)
    (cooldown t1 t2 t3 : Nat) (h12 : t1 ≤ t2) (h2 : t2 < t1 + cooldown)
    (h3 : t1 + cooldown ≤ t3) :
    (tackle_call ⟨[]⟩ t1 subject strategy cooldown).2 =
      [.setex (subject, strategy) (t1 + cooldown), .exec strategy subject t1] ∧
    tackle_call (tackle_call ⟨[]⟩ t1 subject strategy cooldown).1 t2
        subject strategy cooldown =
      ((tackle_call ⟨[]⟩ t1 subject strategy cooldown).1, []) ∧
    exec_count ((tackle_call ⟨[]⟩ t1 subject strategy cooldown).2 ++
      (tackle_call (tackle_call ⟨[]⟩ t1 subject strategy cooldown).1 t2
        subject strategy cooldown).2) = 1 ∧
    exec_count ((tackle_call ⟨[]⟩ t1 subject strategy cooldown).2 ++
      (tackle_call (tackle_call ⟨[]⟩ t1 subject strategy cooldown).1 t2
        subject strategy cooldown).2 ++
      (tackle_call ((tackle_call (tackle_call ⟨[]⟩ t1 subject strategy cooldown).1
          t2 subject strategy cooldown).1) t3 subject strategy cooldown).2) = 2 := by
  have hfirst : tackle_call ⟨[]⟩ t1 subject strategy cooldown =
      (⟨[((subject, strategy), t1 + cooldown)]⟩,
       [.setex (subject, strategy) (t1 + cooldown), .exec strategy subject t1]) := by
    simp [tackle_call, citadel_tackle_task_throttling_key, rds_mem, rds_setex]
  have hlive : rds_mem ⟨[((subject, strategy), t1 + cooldown)]⟩
      (subject, strategy) t2 = true := by
    simp [rds_mem, h2]
  have hsecond : tackle_call (⟨[((subject, strategy), t1 + cooldown)]⟩ : RdsStore)
      t2 subject strategy cooldown =
      (⟨[((subject, strategy), t1 + cooldown)]⟩, []) := by
    simp [tackle_call, citadel_tackle_task_throttling_key, hlive]
  have hdead : rds_mem ⟨[((subject, strategy), t1 + cooldown)]⟩
      (subject, strategy) t3 = false := by
    simp [rds_mem]
    omega
  have hthird : tackle_call (⟨[((subject, strategy), t1 + cooldown)]⟩ : RdsStore)
      t3 subject strategy cooldown =
      (rds_setex ⟨[((subject, strategy), t1 + cooldown)]⟩ (subject, strategy)
        cooldown t3,
       [.setex (subject, strategy) (t3 + cooldown), .exec strategy subject t3]) := by
    simp [tackle_call, citadel_tackle_task_throttling_key, hdead]
  rw [hfirst]
  refine ⟨rfl, ?_, ?_, ?_⟩
  · exact hsecond
  · rw [hsecond]
    rfl
  · rw [hsecond]
    simp only [hthird]
    rfl

theorem tackle_call_throttles_witness :
    exec_count ((tackle_call ⟨[]⟩ 0 "aaaaaaa1" "respawn_container" 60).2 ++
      (tackle_call (tackle_call ⟨[]⟩ 0 "aaaaaaa1" "respawn_container" 60).1 30
        "aaaaaaa1" "respawn_container" 60).2) = 1 ∧
    exec_count ((tackle_call ⟨[]⟩ 0 "aaaaaaa1" "respawn_container" 60).2 ++
      (tackle_call (tackle_call ⟨[]⟩ 0 "aaaaaaa1" "respawn_container" 60).1 30
        "aaaaaaa1" "respawn_container" 60).2 ++
      (tackle_call ((tackle_call (tackle_call ⟨[]⟩ 0 "aaaaaaa1" "respawn_container" 60).1
          30 "aaaaaaa1" "respawn_container" 60).1) 60 "aaaaaaa1"
          "respawn_container" 60).2) = 2 :=
  ⟨(tackle_call_throttles "aaaaaaa1" "respawn_container" 60 0 30 60
      (by decide) (by decide) (by decide)).2.2.1,
   (tackle_call_throttles "aaaaaaa1" "respawn_container" 60 0 30 60
      (by decide) (by decide) (by decide)).2.2.2⟩

end Citadel
